import Mathlib

/-!
Shallow embedding of the monitoring decision pipeline of the
ml-monitoring-system repository, together with proofs about its behaviour.

Conventions of the embedding:
* Python floats are modelled as rationals; the comparisons the code performs
  are strict orders in both worlds.
* UTC timestamps (produced by datetime.utcnow and compared after
  datetime.fromisoformat) are modelled as integers counting seconds, which
  preserves the total order used by the comparisons.
* JSON files that may be absent on disk are modelled as Option values:
  none stands for a missing file, some r for a file parsing to r.
* Each top-level Python script is modelled as a pure function of the data it
  reads, returning the data it writes.
-/

/-- Alert record as produced by create_alert in alert_engine.py:
timestamp, level, source, message. -/
structure Alert where
  timestamp : Int
  level : String
  source : String
  message : String
deriving DecidableEq, Repr

/-- create_alert from alert_engine.py: builds the standardized alert record,
stamped with the current UTC time (passed here as the parameter now). -/
def create_alert (now : Int) (level : String) (message : String) (source : String) : Alert :=
  { timestamp := now, level := level, source := source, message := message }

/-- Per-feature entry of the data drift report, as written by data_drift.py. -/
structure DriftStats where
  ks_statistic : ℚ
  p_value : ℚ
  drift_detected : Bool
deriving DecidableEq, Repr

/-- The data drift report: a mapping from feature name to its statistics
(a Python dict, modelled as an association list in insertion order). -/
abbrev DataDriftReport := List (String × DriftStats)

/-- The concept drift report written by concept_drift.py. -/
structure ConceptDriftReport where
  ks_statistic : ℚ
  p_value : ℚ
  concept_drift_detected : Bool
deriving DecidableEq, Repr

/-- One batch entry of the performance history written by
performance_monitor.py. -/
structure PerformanceSnapshot where
  timestamp : Int
  accuracy : ℚ
  precision : ℚ
  «recall» : ℚ
  roc_auc : ℚ
  performance_degraded : Bool
deriving DecidableEq, Repr

/-- The performance history: ordered sequence of per-batch snapshots. -/
abbrev PerformanceHistory := List PerformanceSnapshot

/-! ## Threshold comparisons (data_drift.py, concept_drift.py,
performance_monitor.py) -/

/-- P_VALUE_THRESHOLD from data_drift.py and concept_drift.py (0.05). -/
def P_VALUE_THRESHOLD : ℚ := 1/20

/-- drift_detected from data_drift.py: bool(p_value < P_VALUE_THRESHOLD),
with the threshold value taken as a parameter. -/
def drift_detected (p_value : ℚ) (threshold : ℚ) : Bool :=
  decide (p_value < threshold)

/-- concept_drift_detected from concept_drift.py:
bool(p_value < P_VALUE_THRESHOLD), threshold as a parameter. -/
def concept_drift_detected (p_value : ℚ) (threshold : ℚ) : Bool :=
  decide (p_value < threshold)

/-- DEGRADATION_THRESHOLD from performance_monitor.py (0.90). -/
def DEGRADATION_THRESHOLD : ℚ := 9/10

/-- performance_degraded from performance_monitor.py:
bool(accuracy < DEGRADATION_THRESHOLD * baseline_accuracy), with the
degradation threshold taken as a parameter. -/
def performance_degraded (accuracy : ℚ) (baseline_accuracy : ℚ) (threshold : ℚ) : Bool :=
  decide (accuracy < threshold * baseline_accuracy)

/-! ## Performance monitor batching (performance_monitor.py) -/

/-- BATCH_SIZE from performance_monitor.py. -/
def BATCH_SIZE : Nat := 50

/-- The batch partition of performance_monitor.py: the loop
for i in range(0, len(X), BATCH_SIZE) slices X.iloc at i to i+BATCH_SIZE and
skips slices shorter than BATCH_SIZE, which is exactly: repeatedly take a
full chunk of B rows and recurse on the rest, stopping when fewer than B
rows remain. -/
def batches {α : Type} (B : Nat) (xs : List α) : List (List α) :=
  if h : 0 < B ∧ B ≤ xs.length then
    xs.take B :: batches B (xs.drop B)
  else []
termination_by xs.length
decreasing_by
  simp only [List.length_drop]
  omega

/-- The batch loop of performance_monitor.py: for each complete batch,
compute the four metrics (accuracy, precision, recall, roc_auc — produced by
the external model plus sklearn scorers, here the parameter batch_metrics),
stamp it, and set the performance_degraded flag from the accuracy and the
baseline accuracy. -/
def performance_history {α : Type} (now : Int) (batch_metrics : List α → ℚ × ℚ × ℚ × ℚ)
    (baseline_accuracy : ℚ) (data : List α) : PerformanceHistory :=
  (batches BATCH_SIZE data).map (fun b =>
    let m := batch_metrics b
    { timestamp := now
      accuracy := m.1
      precision := m.2.1
      «recall» := m.2.2.1
      roc_auc := m.2.2.2
      performance_degraded := performance_degraded m.1 baseline_accuracy DEGRADATION_THRESHOLD })

/-! ## Alert engine (alert_engine.py) -/

/-- Section 5 of alert_engine.py. The guard `if data_drift_report:` is Python
truthiness: it is False both when load_json returned None (missing file) and
when the report is an empty dict. Otherwise the features with
drift_detected are collected and exactly one WARNING or INFO alert is
appended. -/
def data_drift_alerts (now : Int) (data_drift_report : Option DataDriftReport) : List Alert :=
  match data_drift_report with
  | none => []
  | some report =>
    if report.isEmpty then []
    else
      let drifted_features := report.filter (fun p => p.2.drift_detected)
      if !drifted_features.isEmpty then
        [create_alert now "WARNING"
          ("Data drift detected in " ++ toString drifted_features.length ++ " features.")
          "data_drift"]
      else
        [create_alert now "INFO" "No significant data drift detected." "data_drift"]

/-- Section 6 of alert_engine.py. A present concept drift report is a
non-empty dict (it always carries its three keys), hence truthy. -/
def concept_drift_alerts (now : Int) (concept_drift_report : Option ConceptDriftReport) : List Alert :=
  match concept_drift_report with
  | none => []
  | some report =>
    if report.concept_drift_detected then
      [create_alert now "WARNING" "Concept drift detected based on prediction distribution."
        "concept_drift"]
    else
      [create_alert now "INFO" "No concept drift detected." "concept_drift"]

/-- Section 7 of alert_engine.py. As in the data drift rule, the guard
`if performance_history:` is False for a missing file and for an empty
history list. -/
def performance_alerts (now : Int) (history : Option PerformanceHistory) : List Alert :=
  match history with
  | none => []
  | some history =>
    if history.isEmpty then []
    else
      let degraded_batches := history.filter (fun b => b.performance_degraded)
      if !degraded_batches.isEmpty then
        [create_alert now "CRITICAL"
          ("Performance degraded in " ++ toString degraded_batches.length ++ " batches.")
          "performance_monitor"]
      else
        [create_alert now "INFO" "Model performance within acceptable range." "performance_monitor"]

/-- One run of alert_engine.py: the three rules run independently, in source
order, each appending to the alerts list. -/
def run_alert_engine (now : Int) (dd : Option DataDriftReport)
    (cd : Option ConceptDriftReport) (ph : Option PerformanceHistory) : List Alert :=
  data_drift_alerts now dd ++ concept_drift_alerts now cd ++ performance_alerts now ph

/-- Section 8 of alert_engine.py: load the existing alert log (empty when the
file is absent), extend it with this run's alerts, and write the result. -/
def save_alerts (existing_alerts : Option (List Alert)) (alerts : List Alert) : List Alert :=
  (match existing_alerts with
   | none => []
   | some l => l) ++ alerts

/-! ## Retrain controller (retrain_controller.py) -/

/-- CRITICAL_ALERT_THRESHOLD from retrain_controller.py. -/
def CRITICAL_ALERT_THRESHOLD : Nat := 1

/-- LOOKBACK_HOURS from retrain_controller.py. -/
def LOOKBACK_HOURS : Int := 24

/-- The filter inside should_retrain: alerts whose level is CRITICAL and
whose timestamp is at least the cutoff now - LOOKBACK_HOURS hours. -/
def recent_critical_alerts (alerts : List Alert) (now : Int) : List Alert :=
  alerts.filter (fun alert =>
    alert.level == "CRITICAL" && decide (now - LOOKBACK_HOURS * 3600 ≤ alert.timestamp))

/-- should_retrain from retrain_controller.py: the number of recent CRITICAL
alerts reaches CRITICAL_ALERT_THRESHOLD. -/
def should_retrain (alerts : List Alert) (now : Int) : Bool :=
  decide (CRITICAL_ALERT_THRESHOLD ≤ (recent_critical_alerts alerts now).length)

/-- One decision record of retrain_controller.py. -/
structure RetrainDecision where
  timestamp : Int
  retrain_required : Bool
  reason : String
deriving DecidableEq, Repr

/-- Section 6 of retrain_controller.py: the decision record built from the
loaded alerts, with the fixed triggered and not-triggered reason strings. -/
def decision (alerts : List Alert) (now : Int) : RetrainDecision :=
  let retrain_required := should_retrain alerts now
  { timestamp := now
    retrain_required := retrain_required
    reason :=
      if retrain_required then "CRITICAL performance degradation detected"
      else "System performance within acceptable limits" }

/-- Section 7 of retrain_controller.py: load the existing decision log (empty
when the file is absent) and append this run's decision. -/
def save_decision (existing_logs : Option (List RetrainDecision)) (d : RetrainDecision) :
    List RetrainDecision :=
  (match existing_logs with
   | none => []
   | some l => l) ++ [d]

/-! ## Orchestrator (run_pipeline.py) -/

/-- One entry of PIPELINE_STEPS in run_pipeline.py: the step name and whether
the entry carries the skip_flag key (only Model Training does). -/
structure PipelineStep where
  name : String
  has_skip_flag : Bool
deriving DecidableEq, Repr

/-- PIPELINE_STEPS from run_pipeline.py, in execution order. -/
def PIPELINE_STEPS : List PipelineStep :=
  [ { name := "Model Training", has_skip_flag := true },
    { name := "Model Evaluation", has_skip_flag := false },
    { name := "Data Drift Detection", has_skip_flag := false },
    { name := "Concept Drift Detection", has_skip_flag := false },
    { name := "Performance Monitoring", has_skip_flag := false },
    { name := "Alert Generation", has_skip_flag := false },
    { name := "Retraining Decision", has_skip_flag := false } ]

/-- Accumulated state of the loop in run_pipeline: the success counter, the
list of failed step names, and the list of step names actually attempted
(those for which run_script was invoked). -/
structure PipelineRun where
  successful_steps : Nat
  failed_steps : List String
  attempted : List String
deriving DecidableEq, Repr

/-- One iteration of the loop in run_pipeline. A step whose entry has the
skip_flag is skipped (and counted successful) when skip_training is set;
otherwise run_script is invoked — its exit status is the external parameter
outcome — and the step is tallied as successful or failed. The loop body
never breaks: it continues with remaining steps even if one fails. -/
def run_step (skip_training : Bool) (outcome : String → Bool)
    (acc : PipelineRun) (step : PipelineStep) : PipelineRun :=
  if step.has_skip_flag && skip_training then
    { acc with successful_steps := acc.successful_steps + 1 }
  else if outcome step.name then
    { acc with successful_steps := acc.successful_steps + 1,
               attempted := acc.attempted ++ [step.name] }
  else
    { acc with failed_steps := acc.failed_steps ++ [step.name],
               attempted := acc.attempted ++ [step.name] }

/-- run_pipeline from run_pipeline.py as a fold of the loop body over
PIPELINE_STEPS. -/
def run_pipeline (skip_training : Bool) (outcome : String → Bool) : PipelineRun :=
  PIPELINE_STEPS.foldl (run_step skip_training outcome)
    { successful_steps := 0, failed_steps := [], attempted := [] }

/-- The boolean run_pipeline returns: True exactly when failed_steps is
empty. -/
def run_pipeline_success (skip_training : Bool) (outcome : String → Bool) : Bool :=
  (run_pipeline skip_training outcome).failed_steps.isEmpty

/-- main from run_pipeline.py: sys.exit(0 if success else 1). -/
def main_exit_code (skip_training : Bool) (outcome : String → Bool) : Nat :=
  if run_pipeline_success skip_training outcome then 0 else 1

/-! ## Helper lemmas -/

theorem batches_length {α : Type} (B : Nat) (xs : List α) :
    (batches B xs).length = xs.length / B := by
  rw [batches]
  split
  · rename_i h
    rw [List.length_cons, batches_length B (xs.drop B), List.length_drop,
      Nat.div_eq xs.length B, if_pos h]
  · rename_i h
    rw [List.length_nil, Nat.div_eq xs.length B, if_neg h]
termination_by xs.length
decreasing_by
  simp only [List.length_drop]
  omega

theorem batches_mem_length {α : Type} (B : Nat) (xs : List α) :
    ∀ c ∈ batches B xs, c.length = B := by
  intro c hc
  rw [batches] at hc
  split at hc
  · rename_i h
    rcases List.mem_cons.mp hc with rfl | hc
    · rw [List.length_take]
      exact Nat.min_eq_left h.2
    · exact batches_mem_length B (xs.drop B) c hc
  · exact absurd hc (List.not_mem_nil c)
termination_by xs.length
decreasing_by
  simp only [List.length_drop]
  omega

theorem batches_flatten {α : Type} (B : Nat) (xs : List α) :
    (batches B xs).flatten = xs.take (B * (xs.length / B)) := by
  rw [batches]
  split
  · rename_i h
    rw [List.flatten_cons, batches_flatten B (xs.drop B), List.length_drop]
    have hdiv : xs.length / B = (xs.length - B) / B + 1 := by
      rw [Nat.div_eq xs.length B, if_pos h]
    rw [hdiv, Nat.mul_add, Nat.mul_one, Nat.add_comm (B * ((xs.length - B) / B)) B,
      List.take_add]
  · rename_i h
    rw [List.flatten_nil, Nat.div_eq xs.length B, if_neg h, Nat.mul_zero, List.take_zero]
termination_by xs.length
decreasing_by
  simp only [List.length_drop]
  omega

/-! ## Claim theorems -/

/-- C4: for every p-value p and significance threshold t (default 0.05), the
drift flag computed by the data-drift detector and by the concept-drift
detector equals (p < t); at the boundary p == t the flag is false. -/
theorem C4_drift_flag_strict_threshold (p t : ℚ) :
    (drift_detected p t = true ↔ p < t)
    ∧ (concept_drift_detected p t = true ↔ p < t)
    ∧ drift_detected t t = false
    ∧ concept_drift_detected t t = false
    ∧ P_VALUE_THRESHOLD = 1/20 := by
  refine ⟨?_, ?_, ?_, ?_, rfl⟩ <;>
    simp [drift_detected, concept_drift_detected]

/-- C5: for every batch accuracy a, baseline accuracy b and degradation
ratio r (default 0.90), the performance monitor's degraded flag equals
(a < r * b); at the boundary a == r * b the flag is false. -/
theorem C5_degraded_flag_strict_threshold (a b r : ℚ) :
    (performance_degraded a b r = true ↔ a < r * b)
    ∧ performance_degraded (r * b) b r = false
    ∧ DEGRADATION_THRESHOLD = 9/10 := by
  refine ⟨?_, ?_, rfl⟩ <;> simp [performance_degraded]

/-- C10: a source file that exists but parses to an empty value (empty
mapping for the data-drift report, empty list for the performance history)
yields no alert for that source, exactly like the absent-file case. -/
theorem C10_empty_report_like_absent (now : Int) :
    data_drift_alerts now (some []) = []
    ∧ data_drift_alerts now (some []) = data_drift_alerts now none
    ∧ performance_alerts now (some []) = []
    ∧ performance_alerts now (some []) = performance_alerts now none :=
  ⟨rfl, rfl, rfl, rfl⟩

/-- C7: the persisted alert log after a run is the prior log followed by the
run's alerts (the prior log a verbatim order-preserving leading segment);
with no prior log the run starts from the empty sequence; each retrain
controller invocation appends exactly one decision to the decision log. -/
theorem C7_logs_append_only (L N : List Alert) (D : List RetrainDecision) (d : RetrainDecision) :
    save_alerts (some L) N = L ++ N
    ∧ (save_alerts (some L) N).take L.length = L
    ∧ (save_alerts (some L) N).drop L.length = N
    ∧ save_alerts none N = N
    ∧ save_decision (some D) d = D ++ [d]
    ∧ (save_decision (some D) d).take D.length = D
    ∧ (save_decision (some D) d).length = D.length + 1
    ∧ save_decision none d = [d] := by
  refine ⟨rfl, ?_, ?_, rfl, rfl, ?_, ?_, rfl⟩
  · simpa [save_alerts] using List.take_left L N
  · simpa [save_alerts] using List.drop_left L N
  · simpa [save_decision] using List.take_left D [d]
  · simp [save_decision]

/-- C3: for a labeled dataset of n rows and batch size 50, the performance
monitor emits exactly n / 50 snapshots, one per complete fixed-size
non-overlapping contiguous batch in original order; the trailing partial
batch produces no snapshot; n = 120 yields exactly 2 snapshots. -/
theorem C3_monitor_batch_partition {α : Type} (now : Int)
    (batch_metrics : List α → ℚ × ℚ × ℚ × ℚ) (baseline_accuracy : ℚ) (data : List α) :
    (performance_history now batch_metrics baseline_accuracy data).length = data.length / 50
    ∧ (∀ c ∈ batches 50 data, c.length = 50)
    ∧ (batches 50 data).flatten = data.take (50 * (data.length / 50))
    ∧ (data.length = 120 →
        (performance_history now batch_metrics baseline_accuracy data).length = 2) := by
  have h1 : (performance_history now batch_metrics baseline_accuracy data).length
      = data.length / 50 := by
    rw [performance_history, List.length_map]
    exact batches_length 50 data
  exact ⟨h1, batches_mem_length 50 data, batches_flatten 50 data,
    fun h => by rw [h1, h]⟩

/-- Witness for C3: a concrete dataset of 120 rows yields exactly 2
snapshots. -/
theorem C3_monitor_batch_partition_witness :
    (performance_history 0 (fun _ => (1, 1, 1, 1)) 1 (List.replicate 120 (0 : Nat))).length
      = 2 :=
  (C3_monitor_batch_partition 0 (fun _ => (1, 1, 1, 1)) 1 (List.replicate 120 (0 : Nat))).2.2.2
    (by simp)

theorem data_drift_alerts_fields (now : Int) (dd : Option DataDriftReport) :
    ∀ a ∈ data_drift_alerts now dd,
      a.source = "data_drift" ∧ (a.level = "WARNING" ∨ a.level = "INFO") := by
  intro a ha
  match dd with
  | none => simp [data_drift_alerts] at ha
  | some report =>
    simp only [data_drift_alerts] at ha
    split at ha
    · simp at ha
    · split at ha
      · rw [List.mem_singleton] at ha
        subst ha
        exact ⟨rfl, Or.inl rfl⟩
      · rw [List.mem_singleton] at ha
        subst ha
        exact ⟨rfl, Or.inr rfl⟩

theorem concept_drift_alerts_fields (now : Int) (cd : Option ConceptDriftReport) :
    ∀ a ∈ concept_drift_alerts now cd,
      a.source = "concept_drift" ∧ (a.level = "WARNING" ∨ a.level = "INFO") := by
  intro a ha
  match cd with
  | none => simp [concept_drift_alerts] at ha
  | some report =>
    simp only [concept_drift_alerts] at ha
    split at ha
    · rw [List.mem_singleton] at ha
      subst ha
      exact ⟨rfl, Or.inl rfl⟩
    · rw [List.mem_singleton] at ha
      subst ha
      exact ⟨rfl, Or.inr rfl⟩

theorem performance_alerts_fields (now : Int) (ph : Option PerformanceHistory) :
    ∀ a ∈ performance_alerts now ph,
      a.source = "performance_monitor" ∧ (a.level = "CRITICAL" ∨ a.level = "INFO") := by
  intro a ha
  match ph with
  | none => simp [performance_alerts] at ha
  | some history =>
    simp only [performance_alerts] at ha
    split at ha
    · simp at ha
    · split at ha
      · rw [List.mem_singleton] at ha
        subst ha
        exact ⟨rfl, Or.inl rfl⟩
      · rw [List.mem_singleton] at ha
        subst ha
        exact ⟨rfl, Or.inr rfl⟩

/-- C6: a missing data-drift, concept-drift or performance-history file
causes the alert engine to emit zero alerts for that source (no default
alert), while the rules whose files exist still run unchanged. -/
theorem C6_missing_file_skips_rule (now : Int) (dd : Option DataDriftReport)
    (cd : Option ConceptDriftReport) (ph : Option PerformanceHistory) :
    run_alert_engine now none cd ph
        = concept_drift_alerts now cd ++ performance_alerts now ph
    ∧ (run_alert_engine now none cd ph).filter (fun a => a.source == "data_drift") = []
    ∧ run_alert_engine now dd none ph
        = data_drift_alerts now dd ++ performance_alerts now ph
    ∧ (run_alert_engine now dd none ph).filter (fun a => a.source == "concept_drift") = []
    ∧ run_alert_engine now dd cd none
        = data_drift_alerts now dd ++ concept_drift_alerts now cd
    ∧ (run_alert_engine now dd cd none).filter (fun a => a.source == "performance_monitor")
        = [] := by
  refine ⟨rfl, ?_, by simp [run_alert_engine, concept_drift_alerts], ?_,
    by simp [run_alert_engine, performance_alerts], ?_⟩
  · rw [List.filter_eq_nil_iff]
    intro a ha
    rcases List.mem_append.mp ha with h | h
    · rcases List.mem_append.mp h with h | h
      · simp [data_drift_alerts] at h
      · have := (concept_drift_alerts_fields now cd a h).1
        simp [this]
    · have := (performance_alerts_fields now ph a h).1
      simp [this]
  · rw [List.filter_eq_nil_iff]
    intro a ha
    rcases List.mem_append.mp ha with h | h
    · rcases List.mem_append.mp h with h | h
      · have := (data_drift_alerts_fields now dd a h).1
        simp [this]
      · simp [concept_drift_alerts] at h
    · have := (performance_alerts_fields now ph a h).1
      simp [this]
  · rw [List.filter_eq_nil_iff]
    intro a ha
    rcases List.mem_append.mp ha with h | h
    · rcases List.mem_append.mp h with h | h
      · have := (data_drift_alerts_fields now dd a h).1
        simp [this]
      · have := (concept_drift_alerts_fields now cd a h).1
        simp [this]
    · simp [performance_alerts] at h

theorem critical_filter_pointwise (now : Int) (a : Alert) :
    (a.level == "CRITICAL" && decide (now - LOOKBACK_HOURS * 3600 ≤ a.timestamp))
      = decide (a.level = "CRITICAL" ∧ now - 24 * 3600 ≤ a.timestamp) := by
  rw [Bool.eq_iff_iff]
  simp [LOOKBACK_HOURS]

theorem recent_critical_alerts_eq (A : List Alert) (now : Int) :
    recent_critical_alerts A now
      = A.filter (fun a => decide (a.level = "CRITICAL" ∧ now - 24 * 3600 ≤ a.timestamp)) := by
  simp only [recent_critical_alerts]
  exact List.filter_congr (fun a _ => critical_filter_pointwise now a)

/-- C1: for every alert list A and current time now, the retrain controller
decides retrain_required exactly when the number of alerts with level
CRITICAL and timestamp at least now minus 24 hours reaches 1, the lower
boundary timestamp = now - 24h counting as inside the window; the recorded
reason is the fixed triggered message exactly when retrain is required and
the fixed not-triggered message otherwise. -/
theorem C1_retrain_controller_rule (A : List Alert) (now : Int) :
    (should_retrain A now = true ↔
      1 ≤ A.countP (fun a => decide (a.level = "CRITICAL" ∧ now - 24 * 3600 ≤ a.timestamp)))
    ∧ (∀ a : Alert, a.level = "CRITICAL" → a.timestamp = now - 24 * 3600 →
        should_retrain (a :: A) now = true)
    ∧ (decision A now).retrain_required = should_retrain A now
    ∧ ((decision A now).reason = "CRITICAL performance degradation detected" ↔
        should_retrain A now = true)
    ∧ ((decision A now).reason = "System performance within acceptable limits" ↔
        should_retrain A now = false) := by
  refine ⟨?_, ?_, rfl, ?_, ?_⟩
  · rw [List.countP_eq_length_filter]
    simp only [should_retrain, CRITICAL_ALERT_THRESHOLD, recent_critical_alerts_eq,
      decide_eq_true_eq]
  · intro a h1 h2
    simp only [should_retrain, decide_eq_true_eq, CRITICAL_ALERT_THRESHOLD,
      recent_critical_alerts_eq, List.filter_cons, h1, h2]
    rw [if_pos ⟨trivial, le_refl _⟩]
    simp only [List.length_cons]
    omega
  · cases hsr : should_retrain A now
    · simp only [decision, hsr, Bool.false_eq_true, if_false]
      constructor
      · intro h
        exact absurd h (by decide)
      · intro h
        exact absurd h (by simp)
    · simp [decision, hsr]
  · cases hsr : should_retrain A now
    · simp [decision, hsr]
    · simp only [decision, hsr, if_true]
      constructor
      · intro h
        exact absurd h (by decide)
      · intro h
        exact absurd h (by simp)

/-- Witness for C1: a single CRITICAL alert stamped exactly at the lower
window boundary triggers retraining. -/
theorem C1_retrain_controller_rule_witness :
    should_retrain
      [{ timestamp := -86400, level := "CRITICAL", source := "performance_monitor", message := "m" }]
      0 = true :=
  (C1_retrain_controller_rule [] 0).2.1
    { timestamp := -86400, level := "CRITICAL", source := "performance_monitor", message := "m" }
    rfl (by decide)

/-- Counterexample to C2: a source report can be present (the file exists
and parses) yet the rule emits no alert at all, because the engine guards
use Python truthiness: a present but empty data-drift report or
performance history is falsy, so the run that should produce exactly one
INFO alert produces zero alerts for that source. -/
theorem C2_counterexample :
    data_drift_alerts 0 (some ([] : DataDriftReport)) = []
    ∧ performance_alerts 0 (some ([] : PerformanceHistory)) = [] :=
  ⟨rfl, rfl⟩

/-- C2 (amended): for every run of the alert engine in which a source report
is present and non-empty, that rule emits exactly one alert: for the
data-drift report a WARNING alert carrying the count of features with
drift_detected = true when that count is positive, else an INFO alert; for
the concept-drift report a WARNING alert when concept_drift_detected = true,
else an INFO alert; for the performance history a CRITICAL alert carrying
the count of batches with performance_degraded = true when that count is
positive, else an INFO alert. -/
theorem C2_one_alert_per_rule (now : Int) (dd : DataDriftReport) (cd : ConceptDriftReport)
    (ph : PerformanceHistory) (hdd : dd ≠ []) (hph : ph ≠ []) :
    (data_drift_alerts now (some dd) =
      [ if 0 < (dd.filter (fun p => p.2.drift_detected)).length then
          create_alert now "WARNING"
            ("Data drift detected in "
              ++ toString (dd.filter (fun p => p.2.drift_detected)).length ++ " features.")
            "data_drift"
        else create_alert now "INFO" "No significant data drift detected." "data_drift" ])
    ∧ (concept_drift_alerts now (some cd) =
      [ if cd.concept_drift_detected then
          create_alert now "WARNING" "Concept drift detected based on prediction distribution."
            "concept_drift"
        else create_alert now "INFO" "No concept drift detected." "concept_drift" ])
    ∧ (performance_alerts now (some ph) =
      [ if 0 < (ph.filter (fun b => b.performance_degraded)).length then
          create_alert now "CRITICAL"
            ("Performance degraded in "
              ++ toString (ph.filter (fun b => b.performance_degraded)).length ++ " batches.")
            "performance_monitor"
        else create_alert now "INFO" "Model performance within acceptable range."
          "performance_monitor" ]) := by
  have hddE : dd.isEmpty = false := by
    cases dd
    · exact absurd rfl hdd
    · rfl
  have hphE : ph.isEmpty = false := by
    cases ph
    · exact absurd rfl hph
    · rfl
  refine ⟨?_, ?_, ?_⟩
  · simp only [data_drift_alerts, hddE, Bool.false_eq_true, if_false]
    by_cases hf : dd.filter (fun p => p.2.drift_detected) = []
    · simp [hf]
    · have h1 : (dd.filter (fun p => p.2.drift_detected)).isEmpty = false := by
        cases h : dd.filter (fun p => p.2.drift_detected)
        · exact absurd h hf
        · rfl
      rw [if_pos (List.length_pos.mpr hf)]
      simp [h1]
  · cases hcd : cd.concept_drift_detected <;>
      simp [concept_drift_alerts, hcd]
  · simp only [performance_alerts, hphE, Bool.false_eq_true, if_false]
    by_cases hf : ph.filter (fun b => b.performance_degraded) = []
    · simp [hf]
    · have h1 : (ph.filter (fun b => b.performance_degraded)).isEmpty = false := by
        cases h : ph.filter (fun b => b.performance_degraded)
        · exact absurd h hf
        · rfl
      rw [if_pos (List.length_pos.mpr hf)]
      simp [h1]

/-- Witness for C2 (amended): a one-feature report with drift yields exactly
the WARNING alert counting one drifted feature. -/
theorem C2_one_alert_per_rule_witness :
    data_drift_alerts 0 (some [("f1", { ks_statistic := 3/100, p_value := 3/100, drift_detected := true })]) =
      [create_alert 0 "WARNING" "Data drift detected in 1 features." "data_drift"] := by
  rw [(C2_one_alert_per_rule 0
    [("f1", { ks_statistic := 3/100, p_value := 3/100, drift_detected := true })]
    { ks_statistic := 1/10, p_value := 1/2, concept_drift_detected := false }
    [{ timestamp := 0, accuracy := 1, precision := 1, «recall» := 1, roc_auc := 1,
       performance_degraded := false }]
    (by decide) (by decide)).1]
  decide

theorem run_pipeline_foldl (outcome : String → Bool) (l : List PipelineStep)
    (acc : PipelineRun) :
    ((l.foldl (run_step false outcome) acc).attempted
        = acc.attempted ++ l.map PipelineStep.name)
    ∧ ((l.foldl (run_step false outcome) acc).failed_steps
        = acc.failed_steps ++ (l.map PipelineStep.name).filter (fun n => !outcome n)) := by
  induction l generalizing acc with
  | nil => simp
  | cons s rest ih =>
    have hstep : run_step false outcome acc s =
        if outcome s.name then
          { successful_steps := acc.successful_steps + 1, failed_steps := acc.failed_steps, attempted := acc.attempted ++ [s.name] }
        else
          { successful_steps := acc.successful_steps, failed_steps := acc.failed_steps ++ [s.name], attempted := acc.attempted ++ [s.name] } := by
      simp [run_step]
    cases h : outcome s.name
    · rw [List.foldl_cons, hstep, if_neg (by simp [h])]
      obtain ⟨ha, hf⟩ := ih { successful_steps := acc.successful_steps, failed_steps := acc.failed_steps ++ [s.name], attempted := acc.attempted ++ [s.name] }
      refine ⟨?_, ?_⟩
      · rw [ha]
        simp
      · rw [hf]
        simp [h]
    · rw [List.foldl_cons, hstep, if_pos (by simp [h])]
      obtain ⟨ha, hf⟩ := ih { successful_steps := acc.successful_steps + 1, failed_steps := acc.failed_steps, attempted := acc.attempted ++ [s.name] }
      refine ⟨?_, ?_⟩
      · rw [ha]
        simp
      · rw [hf]
        simp [h]

/-- C8: for every assignment of success or failure to the seven pipeline
stages, the orchestrator attempts every stage regardless of earlier
failures, records each failed stage in the summary, and exits non-zero
exactly when at least one stage failed. -/
theorem C8_orchestrator_continues_after_failure (outcome : String → Bool) :
    (run_pipeline false outcome).attempted = PIPELINE_STEPS.map PipelineStep.name
    ∧ (run_pipeline false outcome).failed_steps
        = (PIPELINE_STEPS.map PipelineStep.name).filter (fun n => !outcome n)
    ∧ (main_exit_code false outcome ≠ 0 ↔ ∃ s ∈ PIPELINE_STEPS, outcome s.name = false) := by
  obtain ⟨ha, hf⟩ := run_pipeline_foldl outcome PIPELINE_STEPS
    { successful_steps := 0, failed_steps := [], attempted := [] }
  have hattempt : (run_pipeline false outcome).attempted
      = PIPELINE_STEPS.map PipelineStep.name := by
    rw [run_pipeline, ha]
    rfl
  have hfailed : (run_pipeline false outcome).failed_steps
      = (PIPELINE_STEPS.map PipelineStep.name).filter (fun n => !outcome n) := by
    rw [run_pipeline, hf]
    rfl
  refine ⟨hattempt, hfailed, ?_⟩
  simp only [main_exit_code, run_pipeline_success, hfailed]
  by_cases hc : (PIPELINE_STEPS.map PipelineStep.name).filter (fun n => !outcome n) = []
  · rw [hc]
    simp only [List.isEmpty_nil, if_true, ne_eq, not_true_eq_false, false_iff]
    rintro ⟨s, hs, hfalse⟩
    have hmem : s.name ∈ (PIPELINE_STEPS.map PipelineStep.name).filter (fun n => !outcome n) :=
      List.mem_filter.mpr ⟨List.mem_map_of_mem PipelineStep.name hs, by simp [hfalse]⟩
    rw [hc] at hmem
    exact List.not_mem_nil s.name hmem
  · have hE : ((PIPELINE_STEPS.map PipelineStep.name).filter (fun n => !outcome n)).isEmpty
        = false := by
      cases h : (PIPELINE_STEPS.map PipelineStep.name).filter (fun n => !outcome n)
      · exact absurd h hc
      · rfl
    rw [hE]
    simp only [Bool.false_eq_true, if_false, ne_eq]
    constructor
    · intro _
      obtain ⟨n, hn⟩ := List.exists_mem_of_ne_nil _ hc
      obtain ⟨hnmem, hnout⟩ := List.mem_filter.mp hn
      obtain ⟨s, hs, rfl⟩ := List.mem_map.mp hnmem
      exact ⟨s, hs, by simpa using hnout⟩
    · intro _
      decide

/-- Witness for C8: when every stage fails, the orchestrator exits
non-zero. -/
theorem C8_orchestrator_continues_after_failure_witness :
    main_exit_code false (fun _ => false) ≠ 0 :=
  (C8_orchestrator_continues_after_failure (fun _ => false)).2.2.mpr
    ⟨{ name := "Model Training", has_skip_flag := true }, by decide, rfl⟩

/-- C9: every alert created by the alert engine has level INFO, WARNING or
CRITICAL and source data_drift, concept_drift or performance_monitor; a
CRITICAL alert comes only from the performance rule; hence a run without a
performance history contributes no alert that the retrain controller's
CRITICAL filter can select, at any decision time. -/
theorem C9_critical_only_from_performance (now : Int) (dd : Option DataDriftReport)
    (cd : Option ConceptDriftReport) (ph : Option PerformanceHistory) :
    (∀ a ∈ run_alert_engine now dd cd ph,
        (a.level = "INFO" ∨ a.level = "WARNING" ∨ a.level = "CRITICAL")
        ∧ (a.source = "data_drift" ∨ a.source = "concept_drift"
            ∨ a.source = "performance_monitor")
        ∧ (a.level = "CRITICAL" → a.source = "performance_monitor"))
    ∧ (∀ now2 : Int, recent_critical_alerts (run_alert_engine now dd cd none) now2 = []) := by
  constructor
  · intro a ha
    rcases List.mem_append.mp ha with h | h
    · rcases List.mem_append.mp h with h | h
      · obtain ⟨hsrc, hlvl⟩ := data_drift_alerts_fields now dd a h
        refine ⟨?_, Or.inl hsrc, ?_⟩
        · rcases hlvl with h1 | h1
          · exact Or.inr (Or.inl h1)
          · exact Or.inl h1
        · intro hC
          rcases hlvl with h1 | h1 <;> rw [hC] at h1 <;> exact absurd h1 (by decide)
      · obtain ⟨hsrc, hlvl⟩ := concept_drift_alerts_fields now cd a h
        refine ⟨?_, Or.inr (Or.inl hsrc), ?_⟩
        · rcases hlvl with h1 | h1
          · exact Or.inr (Or.inl h1)
          · exact Or.inl h1
        · intro hC
          rcases hlvl with h1 | h1 <;> rw [hC] at h1 <;> exact absurd h1 (by decide)
    · obtain ⟨hsrc, hlvl⟩ := performance_alerts_fields now ph a h
      refine ⟨?_, Or.inr (Or.inr hsrc), fun _ => hsrc⟩
      rcases hlvl with h1 | h1
      · exact Or.inr (Or.inr h1)
      · exact Or.inl h1
  · intro now2
    rw [recent_critical_alerts, List.filter_eq_nil_iff]
    intro a ha
    have hlvl : a.level = "WARNING" ∨ a.level = "INFO" := by
      rcases List.mem_append.mp ha with h | h
      · rcases List.mem_append.mp h with h | h
        · exact (data_drift_alerts_fields now dd a h).2
        · exact (concept_drift_alerts_fields now cd a h).2
      · simp [performance_alerts] at h
    have hne : (a.level == "CRITICAL") = false := by
      rcases hlvl with h1 | h1 <;> rw [h1] <;> decide
    simp [hne]

/-- Witness for C9: the concept-drift WARNING alert satisfies the level
enumeration invariant. -/
theorem C9_critical_only_from_performance_witness :
    ((create_alert 0 "WARNING" "Concept drift detected based on prediction distribution."
        "concept_drift").level = "INFO"
      ∨ (create_alert 0 "WARNING" "Concept drift detected based on prediction distribution."
        "concept_drift").level = "WARNING"
      ∨ (create_alert 0 "WARNING" "Concept drift detected based on prediction distribution."
        "concept_drift").level = "CRITICAL") :=
  ((C9_critical_only_from_performance 0 none
      (some { ks_statistic := 1/100, p_value := 1/100, concept_drift_detected := true }) none).1
    (create_alert 0 "WARNING" "Concept drift detected based on prediction distribution."
      "concept_drift")
    (by decide)).1
